import Mathlib

/-!
Shallow embedding of the request-dispatch core of `voicecom/gortsplib`
(files `server_conn.go` and `client_reader.go`), with theorems checking
the natural-language specification against it.

Modelling notes:
* RTSP headers (`base.Header`, a Go `map[string]base.HeaderValue`) are
  association lists with map semantics: `headerGet` returns the first
  binding, `headerSet` replaces any previous binding of the key.
* URLs are represented by their string form (`base.URL.String()`); a Go
  `nil` URL is `Option.none`.
* The handler (`Server.Handler`) is a record of capability flags (the Go
  code probes capabilities with runtime type assertions) together with
  the callback results for the callbacks the dispatch path invokes
  directly (`OnDescribe`, `OnGetParameter`, `OnSetParameter`).
* `ServerSession.handleRequest` and `Server.handleRequest` live outside
  the embedded files; they are abstract functions in a `SessionEnv`
  record. Their errors are application/session-layer errors, modelled
  as opaque numeric codes (the connection-layer error constructors
  below are produced only by the embedded connection code itself).
* Side effects (the `sc.session` binding, and which of the two
  `handleRequest` targets was called) are returned explicitly in the
  result records.
* Response bodies: SDP marshaling is external; a DESCRIBE body is
  modelled as the pair (server-side description, multicast flag) that
  the code feeds to `Marshal`.
-/

abbrev HeaderValue := List String

abbrev Header := List (String × HeaderValue)

/-- Lookup of a header key, Go map semantics (`h, ok := header[k]`). -/
def headerGet (h : Header) (k : String) : Option HeaderValue :=
  (h.find? (fun p => p.1 == k)).map Prod.snd

/-- Update of a header key, Go map semantics (`header[k] = v`). -/
def headerSet (h : Header) (k : String) (v : HeaderValue) : Header :=
  (k, v) :: h.filter (fun p => p.1 != k)

theorem headerGet_headerSet_same (h : Header) (k : String) (v : HeaderValue) :
    headerGet (headerSet h k v) k = some v := by
  simp [headerGet, headerSet, List.find?]

theorem find_filter_ne (l : Header) (k k' : String) (hne : k' ≠ k) :
    (l.filter (fun p => p.1 != k)).find? (fun p => p.1 == k') =
      l.find? (fun p => p.1 == k') := by
  induction l with
  | nil => rfl
  | cons a t ih =>
    by_cases hk : a.1 = k
    · have h1 : (a.1 != k) = false := by simp [hk]
      have h2 : (a.1 == k') = false := by
        simp [hk]
        exact fun he => hne he.symm
      simp [List.filter, h1, List.find?, h2, ih]
    · have h1 : (a.1 != k) = true := by simp [hk]
      by_cases h2 : a.1 = k'
      · have h4 : (k' != k) = true := bne_iff_ne.mpr hne
        simp [List.filter, h1, List.find?, h2, h4]
      · have h3 : (a.1 == k') = false := by simp [h2]
        simp [List.filter, h1, List.find?, h3, ih]

theorem headerGet_headerSet_other (h : Header) (k k' : String) (v : HeaderValue)
    (hne : k' ≠ k) : headerGet (headerSet h k v) k' = headerGet h k' := by
  have hk : (k == k') = false := by
    simp
    exact fun he => hne he.symm
  simp [headerGet, headerSet, List.find?, hk, find_filter_ne _ _ _ hne]

/-- RTSP methods (`base.Method`). -/
inductive Method where
  | options
  | describe
  | announce
  | setup
  | play
  | record
  | pause
  | teardown
  | getParameter
  | setParameter
deriving DecidableEq, Repr

/-- A media of a session description (`description.Media`); formats are
opaque identifiers, since format handling is outside the embedded files. -/
structure Media where
  type_ : String
  id : String
  isBackChannel : Bool
  control : String
  formats : List String
deriving DecidableEq, Repr

/-- A session description (`description.Session`). -/
structure DSession where
  title : String
  fecGroups : List String
  medias : List Media
deriving DecidableEq, Repr

/-- A request (`base.Request`); the body is not used by the dispatch path. -/
structure Request where
  method : Method
  url : Option String
  header : Header
deriving DecidableEq, Repr

/-- A response (`base.Response`). The body holds the `Marshal` input of a
DESCRIBE reply (server-side description and multicast flag); other bodies
are not modelled. -/
structure Response where
  statusCode : Nat
  header : Header
  body : Option (DSession × Bool)
deriving DecidableEq, Repr

/-- Errors visible to the connection dispatch path. `cseqMissing`,
`invalidPath` and `linkedToOtherSession` are the `liberrors` values the
embedded code constructs itself; `envErr` wraps the opaque errors coming
back from sessions, the server and the application callbacks; `writeErr`
wraps I/O failures of `WriteResponse`. -/
inductive SError where
  | cseqMissing
  | invalidPath
  | linkedToOtherSession
  | envErr (code : Nat)
  | writeErr (code : Nat)
deriving DecidableEq, Repr

/-- Injection of application/session-layer error codes. -/
def appToErr (o : Option Nat) : Option SError :=
  o.map SError.envErr

theorem appToErr_ne_cseqMissing (o : Option Nat) :
    appToErr o ≠ some SError.cseqMissing := by
  cases o <;> simp [appToErr]

/-- A server session, as seen from the connection (`ServerSession`): only
its secret ID matters to the embedded code. -/
structure ServerSession where
  secretID : String
deriving DecidableEq, Repr

/-- The stream argument returned by `OnDescribe` (`ServerStream`): only its
description is read by the dispatch path. -/
structure ServerStream where
  desc : DSession
deriving DecidableEq, Repr

/-- `getSessionID` of `server_conn.go`. -/
def getSessionID (header : Header) : String :=
  match headerGet header "Session" with
  | some [v] => v
  | _ => ""

/-- `serverSideDescription` media loop: index-carrying helper for the
`for i, medi := range d.Medias` loop. -/
def serverSideMedias (i : Nat) : List Media → List Media
  | [] => []
  | medi :: rest =>
    { type_ := medi.type_
      id := medi.id
      isBackChannel := medi.isBackChannel
      control := "trackID=" ++ toString i
      formats := medi.formats } :: serverSideMedias (i + 1) rest

/-- `serverSideDescription` of `server_conn.go`. -/
def serverSideDescription (d : DSession) : DSession :=
  { title := d.title
    fecGroups := d.fecGroups
    medias := serverSideMedias 0 d.medias }

/-- The configured handler (`Server.Handler`): which optional capability
interfaces it implements (the Go code probes these with type assertions),
and the results of the callbacks the connection invokes directly. -/
structure Handler where
  hasDescribe : Bool
  hasAnnounce : Bool
  hasSetup : Bool
  hasPlay : Bool
  hasRecord : Bool
  hasPause : Bool
  hasGetParameter : Bool
  hasSetParameter : Bool
  onDescribe : String → String → Response × Option ServerStream × Option Nat
  onGetParameter : String → String → Response × Option Nat
  onSetParameter : String → String → Response × Option Nat

/-- External collaborators of the dispatch path: the session-level and
server-level `handleRequest` targets (their code is outside the embedded
files), `getPathAndQuery`, the `vlcmulticast` query probe
(`url.ParseQuery` succeeded and the key is present), and the
`MulticastIPRange` setting. -/
structure SessionEnv where
  sessionHandle : ServerSession → String → Request → Bool →
    Response × Option ServerSession × Option Nat
  serverHandle : String → Request → Bool →
    Response × Option ServerSession × Option Nat
  pathAndQuery : String → String × String
  vlcMulticastQuery : String → Bool
  multicastIPRange : String

/-- Result of the dispatch path on one request: the response and error of
the Go return value, the connection's session binding after the call
(`sc.session`), and whether the request was forwarded to the bound
session's `handleRequest` or to the server's. -/
structure InnerResult where
  res : Response
  err : Option SError
  session : Option ServerSession
  fwdSession : Bool
  fwdServer : Bool
deriving Repr

/-- `handleRequestInSession` of `server_conn.go`. -/
def handleRequestInSession (env : SessionEnv) (sess : Option ServerSession)
    (sxID : String) (req : Request) (create : Bool) : InnerResult :=
  match sess with
  | some s =>
    if sxID ≠ "" ∧ sxID ≠ s.secretID then
      { res := { statusCode := 400, header := [], body := none }
        err := some SError.linkedToOtherSession
        session := some s
        fwdSession := false
        fwdServer := false }
    else
      let r := env.sessionHandle s sxID req create
      { res := r.1, err := appToErr r.2.2, session := r.2.1
        fwdSession := true, fwdServer := false }
  | none =>
    let r := env.serverHandle sxID req create
    { res := r.1, err := appToErr r.2.2, session := r.2.1
      fwdSession := false, fwdServer := true }

/-- The `Public` methods list computed by the OPTIONS branch of
`handleRequestInner`, in source order. -/
def optionsMethods (h : Handler) : List String :=
  (if h.hasDescribe then ["DESCRIBE"] else []) ++
  (if h.hasAnnounce then ["ANNOUNCE"] else []) ++
  (if h.hasSetup then ["SETUP"] else []) ++
  (if h.hasPlay then ["PLAY"] else []) ++
  (if h.hasRecord then ["RECORD"] else []) ++
  (if h.hasPause then ["PAUSE"] else []) ++
  ["GET_PARAMETER"] ++
  (if h.hasSetParameter then ["SET_PARAMETER"] else []) ++
  ["TEARDOWN"]

/-- A 501 Not Implemented result that leaves everything untouched (the
fall-through at the end of `handleRequestInner`). -/
def notImplementedResult (sess : Option ServerSession) : InnerResult :=
  { res := { statusCode := 501, header := [], body := none }
    err := none
    session := sess
    fwdSession := false
    fwdServer := false }

/-- The per-method `switch` of `handleRequestInner`, reached after the
CSeq and URL validations. -/
def dispatchMethod (h : Handler) (env : SessionEnv) (sess : Option ServerSession)
    (req : Request) : InnerResult :=
  let sxID := getSessionID req.header
  let pq :=
    match req.method with
    | Method.describe | Method.getParameter | Method.setParameter =>
      env.pathAndQuery (req.url.getD "")
    | _ => ("", "")
  match req.method with
  | Method.options =>
    if sxID ≠ "" then
      handleRequestInSession env sess sxID req false
    else
      { res :=
          { statusCode := 200
            header := [("Public", [String.intercalate ", " (optionsMethods h)])]
            body := none }
        err := none
        session := sess
        fwdSession := false
        fwdServer := false }
  | Method.describe =>
    if h.hasDescribe then
      let r := h.onDescribe pq.1 pq.2
      let res0 := r.1
      let stream := r.2.1
      let res1 :=
        if res0.statusCode = 200 then
          let hdr :=
            headerSet
              (headerSet res0.header "Content-Base" [req.url.getD "" ++ "/"])
              "Content-Type" ["application/sdp"]
          let multicast :=
            env.multicastIPRange ≠ "" ∧ env.vlcMulticastQuery pq.2 = true
          let body :=
            match stream with
            | some st => some (serverSideDescription st.desc, decide multicast)
            | none => res0.body
          { res0 with header := hdr, body := body }
        else res0
      { res := res1, err := appToErr r.2.2, session := sess
        fwdSession := false, fwdServer := false }
    else notImplementedResult sess
  | Method.announce =>
    if h.hasAnnounce then handleRequestInSession env sess sxID req true
    else notImplementedResult sess
  | Method.setup =>
    if h.hasSetup then handleRequestInSession env sess sxID req true
    else notImplementedResult sess
  | Method.play =>
    if sxID ≠ "" then
      if h.hasPlay then handleRequestInSession env sess sxID req false
      else notImplementedResult sess
    else notImplementedResult sess
  | Method.record =>
    if sxID ≠ "" then
      if h.hasRecord then handleRequestInSession env sess sxID req false
      else notImplementedResult sess
    else notImplementedResult sess
  | Method.pause =>
    if sxID ≠ "" then
      if h.hasPause then handleRequestInSession env sess sxID req false
      else notImplementedResult sess
    else notImplementedResult sess
  | Method.teardown =>
    if sxID ≠ "" then handleRequestInSession env sess sxID req false
    else notImplementedResult sess
  | Method.getParameter =>
    if sxID ≠ "" then handleRequestInSession env sess sxID req false
    else if h.hasGetParameter then
      let r := h.onGetParameter pq.1 pq.2
      { res := r.1, err := appToErr r.2, session := sess
        fwdSession := false, fwdServer := false }
    else notImplementedResult sess
  | Method.setParameter =>
    if sxID ≠ "" then handleRequestInSession env sess sxID req false
    else if h.hasSetParameter then
      let r := h.onSetParameter pq.1 pq.2
      { res := r.1, err := appToErr r.2, session := sess
        fwdSession := false, fwdServer := false }
    else notImplementedResult sess

/-- The CSeq validation of `handleRequestInner`: the request must carry
exactly one `CSeq` value (`!ok || len(cseq) != 1` negated). -/
def cseqValid (hdr : Header) : Bool :=
  match headerGet hdr "CSeq" with
  | some vs => vs.length == 1
  | none => false

/-- `handleRequestInner` of `server_conn.go`. -/
def handleRequestInner (h : Handler) (env : SessionEnv)
    (sess : Option ServerSession) (req : Request) : InnerResult :=
  if cseqValid req.header = false then
    { res := { statusCode := 400, header := [], body := none }
      err := some SError.cseqMissing
      session := sess
      fwdSession := false
      fwdServer := false }
  else if req.method ≠ Method.options ∧ req.url = none then
    { res := { statusCode := 400, header := [], body := none }
      err := some SError.invalidPath
      session := sess
      fwdSession := false
      fwdServer := false }
  else dispatchMethod h env sess req

/-- Result of `handleRequestOuter`: the response handed to
`WriteResponse`, the loop-terminating error, and the state/trace of the
inner dispatch. -/
structure OuterResult where
  emitted : Response
  err : Option SError
  session : Option ServerSession
  fwdSession : Bool
  fwdServer : Bool
deriving Repr

/-- `handleRequestOuter` of `server_conn.go`. The write outcome of
`conn.WriteResponse` is an input (`none` = write succeeded, `some code` =
I/O error); the `OnRequest`/`OnResponse` hooks observe but are not
modelled. -/
def handleRequestOuter (h : Handler) (env : SessionEnv)
    (sess : Option ServerSession) (req : Request) (writeErr : Option Nat) :
    OuterResult :=
  let r := handleRequestInner h env sess req
  let hdr1 :=
    if r.err = some SError.cseqMissing then r.res.header
    else headerSet r.res.header "CSeq" ((headerGet req.header "CSeq").getD [])
  let hdr2 := headerSet hdr1 "Server" ["gortsplib"]
  let finalErr :=
    match r.err with
    | none => writeErr.map SError.writeErr
    | some e => some e
  { emitted := { r.res with header := hdr2 }
    err := finalErr
    session := r.session
    fwdSession := r.fwdSession
    fwdServer := r.fwdServer }

/-- Client-side reader errors (`client_reader.go`): the unexpected-frame
error, or an opaque error returned by `conn.Read`. -/
inductive CError where
  | unexpectedFrame
  | readFailure (code : Nat)
deriving DecidableEq, Repr

/-- One framed unit returned by `conn.Read` on the client side. -/
inductive ReadItem where
  | response (r : Response)
  | request (r : Request)
  | frame (channel : Nat) (payload : List Nat)
deriving DecidableEq, Repr

/-- Observable actions of the client reader loop: a response handed to
`readResponse`, a request handed to `readRequest`, or a per-channel
callback run on a frame payload. -/
inductive CEvent where
  | handledResponse (r : Response)
  | handledRequest (r : Request)
  | ranCallback (channel : Nat) (payload : List Nat)
deriving DecidableEq, Repr

/-- The state of `clientReader` read under its mutex: the
`allowInterleavedFrames` flag, and the set of channels having an entry in
`tcpCallbackByChannel`. -/
structure ClientReaderState where
  allowInterleavedFrames : Bool
  tcpCallbackChannels : List Nat
deriving Repr

/-- `runInner` of `client_reader.go`, run over a finite prefix of read
outcomes (`Except.error e` = the read itself failed). The result is the
trace of observable actions together with the loop's return value:
`some e` when the loop returned error `e` within the prefix, `none` when
it consumed the whole prefix and is still running. -/
def runInner (st : ClientReaderState) :
    List (Except CError ReadItem) → List CEvent × Option CError
  | [] => ([], none)
  | (Except.error e) :: _ => ([], some e)
  | (Except.ok item) :: rest =>
    match item with
    | ReadItem.response r =>
      let x := runInner st rest
      (CEvent.handledResponse r :: x.1, x.2)
    | ReadItem.request r =>
      let x := runInner st rest
      (CEvent.handledRequest r :: x.1, x.2)
    | ReadItem.frame ch payload =>
      if st.allowInterleavedFrames then
        if ch ∈ st.tcpCallbackChannels then
          let x := runInner st rest
          (CEvent.ranCallback ch payload :: x.1, x.2)
        else runInner st rest
      else ([], some CError.unexpectedFrame)

theorem handleRequestInSession_err_ne_cseqMissing (env : SessionEnv)
    (sess : Option ServerSession) (sxID : String) (req : Request) (create : Bool) :
    (handleRequestInSession env sess sxID req create).err ≠
      some SError.cseqMissing := by
  cases sess with
  | none => exact appToErr_ne_cseqMissing _
  | some s =>
    simp only [handleRequestInSession]
    split
    · simp
    · exact appToErr_ne_cseqMissing _

theorem notImplementedResult_err (sess : Option ServerSession) :
    (notImplementedResult sess).err = none := rfl

theorem dispatchMethod_err_ne_cseqMissing (h : Handler) (env : SessionEnv)
    (sess : Option ServerSession) (req : Request) :
    (dispatchMethod h env sess req).err ≠ some SError.cseqMissing := by
  unfold dispatchMethod
  cases req.method <;>
    simp only [] <;>
    (repeat' split) <;>
    first
      | exact handleRequestInSession_err_ne_cseqMissing _ _ _ _ _
      | exact appToErr_ne_cseqMissing _
      | simp [notImplementedResult]

theorem handleRequestInner_err_cseqMissing_iff (h : Handler) (env : SessionEnv)
    (sess : Option ServerSession) (req : Request) :
    ((handleRequestInner h env sess req).err = some SError.cseqMissing) ↔
      cseqValid req.header = false := by
  cases hcv : cseqValid req.header with
  | false => simp [handleRequestInner, hcv]
  | true =>
    simp only [handleRequestInner, hcv]
    rw [if_neg (by simp)]
    constructor
    · intro he
      split at he
      · simp at he
      · exact absurd he (dispatchMethod_err_ne_cseqMissing h env sess req)
    · intro hfalse
      simp at hfalse

theorem handleRequestOuter_header_of_valid (h : Handler) (env : SessionEnv)
    (sess : Option ServerSession) (req : Request) (wErr : Option Nat)
    (hv : cseqValid req.header = true) :
    (handleRequestOuter h env sess req wErr).emitted.header =
      headerSet
        (headerSet (handleRequestInner h env sess req).res.header "CSeq"
          ((headerGet req.header "CSeq").getD []))
        "Server" ["gortsplib"] := by
  have hne : (handleRequestInner h env sess req).err ≠ some SError.cseqMissing := by
    intro he
    have hf := (handleRequestInner_err_cseqMissing_iff h env sess req).mp he
    simp [hv] at hf
  simp only [handleRequestOuter]
  rw [if_neg hne]

/-- C1: when the request header carries exactly one CSeq value, the
response emitted by `handleRequestOuter` carries that same CSeq value
unchanged. -/
theorem response_echoes_cseq (h : Handler) (env : SessionEnv)
    (sess : Option ServerSession) (req : Request) (wErr : Option Nat)
    (v : String) (hc : headerGet req.header "CSeq" = some [v]) :
    headerGet (handleRequestOuter h env sess req wErr).emitted.header "CSeq" =
      some [v] := by
  have hv : cseqValid req.header = true := by simp [cseqValid, hc]
  rw [handleRequestOuter_header_of_valid h env sess req wErr hv]
  rw [headerGet_headerSet_other _ _ _ _ (by decide)]
  rw [headerGet_headerSet_same, hc]
  rfl

/-- C2: when the request header does not carry exactly one CSeq value,
`handleRequestOuter` returns `ErrServerCSeqMissing`, emits a 400 response
that omits the CSeq header while still carrying the Server header; and
this is the only case in which the emitted response lacks a CSeq header. -/
theorem cseq_missing_reply (h : Handler) (env : SessionEnv)
    (sess : Option ServerSession) (req : Request) (wErr : Option Nat) :
    (cseqValid req.header = false →
      (handleRequestOuter h env sess req wErr).err = some SError.cseqMissing ∧
      (handleRequestOuter h env sess req wErr).emitted.statusCode = 400 ∧
      headerGet (handleRequestOuter h env sess req wErr).emitted.header "CSeq" =
        none ∧
      headerGet (handleRequestOuter h env sess req wErr).emitted.header "Server" =
        some ["gortsplib"]) ∧
    (cseqValid req.header = true →
      headerGet (handleRequestOuter h env sess req wErr).emitted.header "CSeq" ≠
        none) := by
  constructor
  · intro hcv
    have hinner : handleRequestInner h env sess req =
        { res := { statusCode := 400, header := [], body := none }
          err := some SError.cseqMissing
          session := sess
          fwdSession := false
          fwdServer := false } := by
      simp [handleRequestInner, hcv]
    refine ⟨?_, ?_, ?_, ?_⟩ <;>
      simp [handleRequestOuter, hinner, headerGet, headerSet, List.find?,
        List.filter]
  · intro hv
    rw [handleRequestOuter_header_of_valid h env sess req wErr hv]
    rw [headerGet_headerSet_other _ _ _ _ (by decide)]
    rw [headerGet_headerSet_same]
    simp

theorem mem_if_singleton (b : Bool) (x s : String) :
    s ∈ (if b then [x] else ([] : List String)) ↔ (b = true ∧ s = x) := by
  cases b <;> simp

theorem mem_optionsMethods (h : Handler) (s : String) :
    s ∈ optionsMethods h ↔
      (s = "GET_PARAMETER" ∨ s = "TEARDOWN" ∨
       (h.hasDescribe = true ∧ s = "DESCRIBE") ∨
       (h.hasAnnounce = true ∧ s = "ANNOUNCE") ∨
       (h.hasSetup = true ∧ s = "SETUP") ∨
       (h.hasPlay = true ∧ s = "PLAY") ∨
       (h.hasRecord = true ∧ s = "RECORD") ∨
       (h.hasPause = true ∧ s = "PAUSE") ∨
       (h.hasSetParameter = true ∧ s = "SET_PARAMETER")) := by
  simp only [optionsMethods, List.mem_append, mem_if_singleton,
    List.mem_singleton]
  tauto

theorem optionsMethods_nodup (h : Handler) : (optionsMethods h).Nodup := by
  unfold optionsMethods
  cases h.hasDescribe <;> cases h.hasAnnounce <;> cases h.hasSetup <;>
    cases h.hasPlay <;> cases h.hasRecord <;> cases h.hasPause <;>
    cases h.hasSetParameter <;> decide

/-- C3: an OPTIONS request without a Session header gets a 200 response
whose Public header joins exactly the union of {GET_PARAMETER, TEARDOWN}
with the methods whose handler capability is implemented. -/
theorem options_public_methods (h : Handler) (env : SessionEnv)
    (sess : Option ServerSession) (req : Request) (wErr : Option Nat)
    (hc : cseqValid req.header = true)
    (hm : req.method = Method.options)
    (hs : getSessionID req.header = "") :
    (handleRequestOuter h env sess req wErr).emitted.statusCode = 200 ∧
    headerGet (handleRequestOuter h env sess req wErr).emitted.header "Public" =
      some [String.intercalate ", " (optionsMethods h)] ∧
    (optionsMethods h).Nodup ∧
    (∀ s, s ∈ optionsMethods h ↔
      (s = "GET_PARAMETER" ∨ s = "TEARDOWN" ∨
       (h.hasDescribe = true ∧ s = "DESCRIBE") ∨
       (h.hasAnnounce = true ∧ s = "ANNOUNCE") ∨
       (h.hasSetup = true ∧ s = "SETUP") ∨
       (h.hasPlay = true ∧ s = "PLAY") ∨
       (h.hasRecord = true ∧ s = "RECORD") ∨
       (h.hasPause = true ∧ s = "PAUSE") ∨
       (h.hasSetParameter = true ∧ s = "SET_PARAMETER"))) := by
  have hinner : handleRequestInner h env sess req =
      { res :=
          { statusCode := 200
            header := [("Public", [String.intercalate ", " (optionsMethods h)])]
            body := none }
        err := none
        session := sess
        fwdSession := false
        fwdServer := false } := by
    simp [handleRequestInner, dispatchMethod, hc, hm, hs]
  have hhdr := handleRequestOuter_header_of_valid h env sess req wErr hc
  refine ⟨?_, ?_, optionsMethods_nodup h, fun s => mem_optionsMethods h s⟩
  · simp [handleRequestOuter, hinner]
  · rw [hhdr, hinner]
    rw [headerGet_headerSet_other _ _ _ _ (by decide)]
    rw [headerGet_headerSet_other _ _ _ _ (by decide)]
    simp [headerGet, List.find?]

/-- C4: when the connection is bound to a session and the request carries
a non-empty Session ID different from that session's secret ID,
`handleRequestInSession` replies 400 with `ErrServerLinkedToOtherSession`,
keeps the binding unchanged, and forwards the request to no session. -/
theorem linked_to_other_session (env : SessionEnv) (S : ServerSession)
    (sxID : String) (req : Request) (create : Bool)
    (h1 : sxID ≠ "") (h2 : sxID ≠ S.secretID) :
    handleRequestInSession env (some S) sxID req create =
      { res := { statusCode := 400, header := [], body := none }
        err := some SError.linkedToOtherSession
        session := some S
        fwdSession := false
        fwdServer := false } := by
  simp only [handleRequestInSession]
  rw [if_pos ⟨h1, h2⟩]

/-- C5: a SETUP request when the setup capability is absent (and an
ANNOUNCE request when the announce capability is absent) gets a 501 reply
without being routed to a session and without any session being created,
the binding staying unchanged. -/
theorem unimplemented_setup_announce (h : Handler) (env : SessionEnv)
    (sess : Option ServerSession) (req : Request) (wErr : Option Nat)
    (hc : cseqValid req.header = true)
    (hu : req.url ≠ none)
    (hme : (req.method = Method.setup ∧ h.hasSetup = false) ∨
           (req.method = Method.announce ∧ h.hasAnnounce = false)) :
    (handleRequestOuter h env sess req wErr).emitted.statusCode = 501 ∧
    (handleRequestOuter h env sess req wErr).session = sess ∧
    (handleRequestOuter h env sess req wErr).fwdSession = false ∧
    (handleRequestOuter h env sess req wErr).fwdServer = false := by
  have hinner : handleRequestInner h env sess req = notImplementedResult sess := by
    rcases hme with ⟨hm, hcap⟩ | ⟨hm, hcap⟩ <;>
      simp [handleRequestInner, dispatchMethod, hc, hm, hcap, hu]
  simp [handleRequestOuter, hinner, notImplementedResult]

/-- C6: when the DESCRIBE callback returns status 200 together with a
stream, the emitted response carries `Content-Type: application/sdp` and
`Content-Base: <request URL>/`. -/
theorem describe_headers (h : Handler) (env : SessionEnv)
    (sess : Option ServerSession) (req : Request) (wErr : Option Nat)
    (u : String) (res0 : Response) (stream : ServerStream) (err0 : Option Nat)
    (hc : cseqValid req.header = true)
    (hu : req.url = some u)
    (hm : req.method = Method.describe)
    (hd : h.hasDescribe = true)
    (hcb : h.onDescribe (env.pathAndQuery u).1 (env.pathAndQuery u).2 =
      (res0, some stream, err0))
    (h200 : res0.statusCode = 200) :
    headerGet (handleRequestOuter h env sess req wErr).emitted.header
      "Content-Type" = some ["application/sdp"] ∧
    headerGet (handleRequestOuter h env sess req wErr).emitted.header
      "Content-Base" = some [u ++ "/"] := by
  have hinner : (handleRequestInner h env sess req).res.header =
      headerSet (headerSet res0.header "Content-Base" [u ++ "/"])
        "Content-Type" ["application/sdp"] := by
    simp [handleRequestInner, dispatchMethod, hc, hm, hu, hd, hcb, h200]
  have hhdr := handleRequestOuter_header_of_valid h env sess req wErr hc
  constructor
  · rw [hhdr, hinner]
    rw [headerGet_headerSet_other _ _ _ _ (by decide)]
    rw [headerGet_headerSet_other _ _ _ _ (by decide)]
    rw [headerGet_headerSet_same]
  · rw [hhdr, hinner]
    rw [headerGet_headerSet_other _ _ _ _ (by decide)]
    rw [headerGet_headerSet_other _ _ _ _ (by decide)]
    rw [headerGet_headerSet_other _ _ _ _ (by decide)]
    rw [headerGet_headerSet_same]

theorem serverSideMedias_length (s : Nat) (l : List Media) :
    (serverSideMedias s l).length = l.length := by
  induction l generalizing s with
  | nil => rfl
  | cons m rest ih => simp [serverSideMedias, ih]

theorem serverSideMedias_get (l : List Media) (s j : Nat)
    (hj : j < (serverSideMedias s l).length) :
    ((serverSideMedias s l).get ⟨j, hj⟩).control =
      "trackID=" ++ toString (s + j) := by
  induction l generalizing s j with
  | nil => simp [serverSideMedias] at hj
  | cons m rest ih =>
    cases j with
    | zero => simp [serverSideMedias]
    | succ j2 =>
      have hj2 : j2 < (serverSideMedias (s + 1) rest).length := by
        simp [serverSideMedias] at hj
        simpa [serverSideMedias_length] using hj
      have ihr := ih (s + 1) j2 hj2
      have harith : s + 1 + j2 = s + (j2 + 1) := by omega
      rw [harith] at ihr
      simpa [serverSideMedias] using ihr

/-- C7: the server-side description used for SDP marshaling gives the
media at index i the control value `trackID=i`, whatever the application
supplied. -/
theorem media_control_trackID (d : DSession) (i : Nat)
    (hi : i < (serverSideDescription d).medias.length) :
    (((serverSideDescription d).medias).get ⟨i, hi⟩).control =
      "trackID=" ++ toString i := by
  have h0 := serverSideMedias_get d.medias 0 i
    (by simpa [serverSideDescription] using hi)
  simpa [serverSideDescription] using h0

/-- C8: an interleaved frame read while `allowInterleavedFrames` is unset
makes the reader loop return the unexpected-frame error, with no callback
run and no later read handled for that prefix. -/
theorem frame_disallowed_terminates (st : ClientReaderState) (ch : Nat)
    (payload : List Nat) (rest : List (Except CError ReadItem))
    (hflag : st.allowInterleavedFrames = false) :
    runInner st (Except.ok (ReadItem.frame ch payload) :: rest) =
      ([], some CError.unexpectedFrame) := by
  simp [runInner, hflag]

/-- C9: in `handleRequestOuter`, a write failure becomes the
loop-terminating error exactly when the dispatch produced no error; a
dispatch error is returned unchanged even when the write also fails. -/
theorem write_error_propagation (h : Handler) (env : SessionEnv)
    (sess : Option ServerSession) (req : Request) (w : Nat) :
    ((handleRequestInner h env sess req).err = none →
      (handleRequestOuter h env sess req (some w)).err =
        some (SError.writeErr w)) ∧
    (∀ e, (handleRequestInner h env sess req).err = some e →
      (handleRequestOuter h env sess req (some w)).err = some e) := by
  constructor
  · intro hnone
    simp [handleRequestOuter, hnone]
  · intro e he
    simp [handleRequestOuter, he]

/-- C10: an interleaved frame read while `allowInterleavedFrames` is set
whose channel has no registered callback is silently discarded: no
callback runs, no error is produced, and the loop continues with the
next read. -/
theorem frame_without_callback_skipped (st : ClientReaderState) (ch : Nat)
    (payload : List Nat) (rest : List (Except CError ReadItem))
    (hflag : st.allowInterleavedFrames = true)
    (hch : ch ∉ st.tcpCallbackChannels) :
    runInner st (Except.ok (ReadItem.frame ch payload) :: rest) =
      runInner st rest := by
  simp [runInner, hflag, hch]

/-- An all-zero response, used as a constant callback result. -/
def resEmpty : Response := { statusCode := 0, header := [], body := none }

/-- A 200 response with no headers, used as a constant callback result. -/
def res200 : Response := { statusCode := 200, header := [], body := none }

/-- A handler implementing no optional capability. -/
def hNone : Handler :=
  { hasDescribe := false
    hasAnnounce := false
    hasSetup := false
    hasPlay := false
    hasRecord := false
    hasPause := false
    hasGetParameter := false
    hasSetParameter := false
    onDescribe := fun _ _ => (resEmpty, none, none)
    onGetParameter := fun _ _ => (resEmpty, none)
    onSetParameter := fun _ _ => (resEmpty, none) }

/-- A one-media session description with an application-chosen control. -/
def dEx : DSession :=
  { title := ""
    fecGroups := []
    medias :=
      [{ type_ := "video"
         id := ""
         isBackChannel := false
         control := "appControl"
         formats := ["h264"] }] }

/-- A handler implementing only DESCRIBE, whose callback returns 200 with
a stream. -/
def hDescribeOK : Handler :=
  { hNone with
    hasDescribe := true
    onDescribe := fun _ _ => (res200, some { desc := dEx }, none) }

/-- A handler implementing only DESCRIBE, with the default callback. -/
def hDescribeOnly : Handler := { hNone with hasDescribe := true }

/-- An environment with constant collaborators. -/
def envTrivial : SessionEnv :=
  { sessionHandle := fun _ _ _ _ => (resEmpty, none, none)
    serverHandle := fun _ _ _ => (resEmpty, none, none)
    pathAndQuery := fun u => (u, "")
    vlcMulticastQuery := fun _ => false
    multicastIPRange := "" }

def reqOptionsCSeq : Request :=
  { method := Method.options, url := some "rtsp://h/", header := [("CSeq", ["1"])] }

def reqNoCSeq : Request :=
  { method := Method.options, url := some "rtsp://h/", header := [] }

def reqSetupCSeq : Request :=
  { method := Method.setup, url := some "rtsp://h/s", header := [("CSeq", ["2"])] }

def reqDescribeCSeq : Request :=
  { method := Method.describe, url := some "rtsp://h/cam"
    header := [("CSeq", ["3"])] }

def reqPlayOther : Request :=
  { method := Method.play, url := some "rtsp://h/"
    header := [("CSeq", ["7"]), ("Session", ["xyz"])] }

def sessAbc : ServerSession := { secretID := "abc" }

/-- C1 witness at a concrete OPTIONS request with CSeq 1. -/
theorem response_echoes_cseq_witness :
    headerGet (handleRequestOuter hNone envTrivial none reqOptionsCSeq
      none).emitted.header "CSeq" = some ["1"] :=
  response_echoes_cseq hNone envTrivial none reqOptionsCSeq none "1" (by decide)

/-- C2 witness: a request without CSeq gets 400, no CSeq, a Server
header and the CSeq-missing error; a request with CSeq keeps its CSeq. -/
theorem cseq_missing_reply_witness :
    (handleRequestOuter hNone envTrivial none reqNoCSeq none).err =
      some SError.cseqMissing ∧
    (handleRequestOuter hNone envTrivial none reqNoCSeq
      none).emitted.statusCode = 400 ∧
    headerGet (handleRequestOuter hNone envTrivial none reqNoCSeq
      none).emitted.header "CSeq" = none ∧
    headerGet (handleRequestOuter hNone envTrivial none reqNoCSeq
      none).emitted.header "Server" = some ["gortsplib"] ∧
    headerGet (handleRequestOuter hNone envTrivial none reqOptionsCSeq
      none).emitted.header "CSeq" ≠ none := by
  have t := cseq_missing_reply hNone envTrivial none reqNoCSeq none
  have t2 := cseq_missing_reply hNone envTrivial none reqOptionsCSeq none
  refine ⟨(t.1 (by decide)).1, (t.1 (by decide)).2.1, (t.1 (by decide)).2.2.1,
    (t.1 (by decide)).2.2.2, t2.2 (by decide)⟩

/-- C3 witness: with only DESCRIBE implemented, OPTIONS replies 200 with
the computed Public list, which contains DESCRIBE. -/
theorem options_public_methods_witness :
    (handleRequestOuter hDescribeOnly envTrivial none reqOptionsCSeq
      none).emitted.statusCode = 200 ∧
    headerGet (handleRequestOuter hDescribeOnly envTrivial none reqOptionsCSeq
      none).emitted.header "Public" =
      some [String.intercalate ", " (optionsMethods hDescribeOnly)] ∧
    "DESCRIBE" ∈ optionsMethods hDescribeOnly := by
  have t := options_public_methods hDescribeOnly envTrivial none reqOptionsCSeq
    none (by decide) (by decide) (by decide)
  exact ⟨t.1, t.2.1, (t.2.2.2 "DESCRIBE").mpr (by simp [hDescribeOnly, hNone])⟩

/-- C4 witness: a bound connection receiving Session xyz while bound to
secret ID abc. -/
theorem linked_to_other_session_witness :
    handleRequestInSession envTrivial (some sessAbc) "xyz" reqPlayOther false =
      { res := { statusCode := 400, header := [], body := none }
        err := some SError.linkedToOtherSession
        session := some sessAbc
        fwdSession := false
        fwdServer := false } :=
  linked_to_other_session envTrivial sessAbc "xyz" reqPlayOther false
    (by decide) (by decide)

/-- C5 witness: SETUP with no setup capability gets 501 and no routing. -/
theorem unimplemented_setup_announce_witness :
    (handleRequestOuter hNone envTrivial none reqSetupCSeq
      none).emitted.statusCode = 501 ∧
    (handleRequestOuter hNone envTrivial none reqSetupCSeq none).session =
      none ∧
    (handleRequestOuter hNone envTrivial none reqSetupCSeq none).fwdSession =
      false ∧
    (handleRequestOuter hNone envTrivial none reqSetupCSeq none).fwdServer =
      false :=
  unimplemented_setup_announce hNone envTrivial none reqSetupCSeq none
    (by decide) (by decide) (Or.inl ⟨by decide, by decide⟩)

/-- C6 witness: DESCRIBE with a 200 callback result carrying a stream. -/
theorem describe_headers_witness :
    headerGet (handleRequestOuter hDescribeOK envTrivial none reqDescribeCSeq
      none).emitted.header "Content-Type" = some ["application/sdp"] ∧
    headerGet (handleRequestOuter hDescribeOK envTrivial none reqDescribeCSeq
      none).emitted.header "Content-Base" = some ["rtsp://h/cam" ++ "/"] :=
  describe_headers hDescribeOK envTrivial none reqDescribeCSeq none
    "rtsp://h/cam" res200 { desc := dEx } none (by decide) (by decide)
    (by decide) (by decide) (by decide) (by decide)

theorem dEx_len : 0 < (serverSideDescription dEx).medias.length := by decide

/-- C7 witness: the single media of `dEx` gets control `trackID=0` even
though the application supplied a different control. -/
theorem media_control_trackID_witness :
    (((serverSideDescription dEx).medias).get ⟨0, dEx_len⟩).control =
      "trackID=0" := by
  have t := media_control_trackID dEx 0 dEx_len
  have hs : "trackID=" ++ toString (0 : Nat) = "trackID=0" := by decide
  rw [hs] at t
  exact t

def stOff : ClientReaderState :=
  { allowInterleavedFrames := false, tcpCallbackChannels := [] }

def stOn : ClientReaderState :=
  { allowInterleavedFrames := true, tcpCallbackChannels := [1] }

/-- C8 witness: a frame with the flag unset terminates the loop. -/
theorem frame_disallowed_terminates_witness :
    runInner stOff [Except.ok (ReadItem.frame 0 [])] =
      ([], some CError.unexpectedFrame) :=
  frame_disallowed_terminates stOff 0 [] [] (by decide)

/-- C9 witness: write failure 5 is returned when dispatch returned no
error; the CSeq-missing error wins over the write failure otherwise. -/
theorem write_error_propagation_witness :
    (handleRequestOuter hNone envTrivial none reqOptionsCSeq (some 5)).err =
      some (SError.writeErr 5) ∧
    (handleRequestOuter hNone envTrivial none reqNoCSeq (some 5)).err =
      some SError.cseqMissing := by
  constructor
  · exact (write_error_propagation hNone envTrivial none reqOptionsCSeq 5).1
      (by decide)
  · exact (write_error_propagation hNone envTrivial none reqNoCSeq 5).2
      SError.cseqMissing (by decide)

/-- C10 witness: a frame on channel 0 with only channel 1 registered is
discarded and the loop goes on. -/
theorem frame_without_callback_skipped_witness :
    runInner stOn [Except.ok (ReadItem.frame 0 [7])] = runInner stOn [] :=
  frame_without_callback_skipped stOn 0 [7] [] (by decide) (by decide)
